import Mathlib

/-!
Verification of the entitlement and usage-metering subsystem of a
note-taking service: subscription state reconciliation from payment-provider
webhook events, plan/feature resolution, usage quotas and cost accounting.

The definitions below are a shallow embedding of the JavaScript source
(`usageService.js`, `aiService.js`, `billingController.js`, `stripe.js`):
persisted tables become lists inside an explicit `DB` state, Prisma queries
become list operations, provider calls become lookups in an explicit
provider state, and thrown errors become `Option`/explicit outcomes.
Monetary amounts and per-token rates are modelled over `ℚ`.
-/

namespace Notebook

/-! ## Static plan configuration (`src/config/stripe.js`) -/

inductive PlanType where
  | FREE
  | PRO
deriving DecidableEq, Repr

inductive SubStatus where
  | ACTIVE
  | PAST_DUE
  | CANCELED
  | INCOMPLETE
deriving DecidableEq, Repr

structure Features where
  conversionsPerMonth : Int
  notesLimit : Int
  aiFeatures : Bool
  exportFormats : List String
  folders : Bool
  tags : Bool
deriving DecidableEq, Repr

structure Plan where
  name : String
  price : ℚ
  priceId : Option String
  features : Features
deriving DecidableEq, Repr

/-- The `PLANS` object of `src/config/stripe.js`. -/
def PLANS : PlanType → Plan
  | .FREE =>
    { name := "Free", price := 0, priceId := none,
      features :=
        { conversionsPerMonth := 10, notesLimit := 20, aiFeatures := false,
          exportFormats := [], folders := false, tags := false } }
  | .PRO =>
    { name := "Pro", price := 1299 / 100, priceId := some "price_pro_monthly",
      features :=
        { conversionsPerMonth := -1, notesLimit := -1, aiFeatures := true,
          exportFormats := ["pdf", "txt", "markdown"], folders := true, tags := true } }

/-! ## Persisted data model (Prisma tables used by the subsystem) -/

/-- Calendar instant at day granularity.  `setHours(0,0,0,0)` in the source
zeroes the time-of-day component, so days are the finest granularity the
month-window comparison needs. -/
structure Date where
  year : Nat
  month : Nat
  day : Nat
deriving DecidableEq, Repr

/-- Lexicographic comparison of calendar dates. -/
def Date.le (a b : Date) : Bool :=
  decide (a.year < b.year) ||
    (decide (a.year = b.year) &&
      (decide (a.month < b.month) ||
        (decide (a.month = b.month) && decide (a.day ≤ b.day))))

structure Subscription where
  id : Nat
  userId : String
  planType : PlanType
  status : SubStatus
  stripeCustomerId : Option String
  stripeSubscriptionId : Option String
  currentPeriodStart : Option Nat
  currentPeriodEnd : Option Nat
  cancelAtPeriodEnd : Bool
  createdAt : Nat
  deletedAt : Option Nat
deriving DecidableEq, Repr

structure User where
  id : String
  email : String
  role : String
deriving DecidableEq, Repr

structure Note where
  id : Nat
  userId : String
  deletedAt : Option Nat
deriving DecidableEq, Repr

/-- A row of the `aIUsage` table (`UsageRecord` in the spec). -/
structure AIUsage where
  userId : String
  noteId : Option Nat
  operation : String
  tokensUsed : Nat
  cost : ℚ
  createdAt : Date
deriving DecidableEq, Repr

structure PaymentHistory where
  userId : String
  stripePaymentId : Option String
  amount : ℚ
  currency : String
  planType : PlanType
  status : String
deriving DecidableEq, Repr

/-- Modelled from the spec: the `PendingGuestCheckout` table (external checkout
session id → email, plan type, billing cycle).  No table of this kind exists in
the source; the structure is included so that claims about persisting such a
mapping can be stated against the persisted state. -/
structure PendingGuestCheckout where
  sessionId : String
  email : String
  planType : String
  billingCycle : String
deriving DecidableEq, Repr

/-- The persisted state: every table the subsystem reads or writes. -/
structure DB where
  users : List User
  subscriptions : List Subscription
  notes : List Note
  aiUsage : List AIUsage
  paymentHistory : List PaymentHistory
  pendingGuestCheckouts : List PendingGuestCheckout
deriving DecidableEq, Repr

/-! ## EntitlementResolver (`UsageService.getUserPlan`) -/

/-- The `where` clause of the `findFirst` in `getUserPlan`:
`{ userId, deletedAt: null }`. -/
def subMatches (uid : String) (s : Subscription) : Bool :=
  decide (s.userId = uid) && decide (s.deletedAt = none)

/-- Embeds `findFirst` with `orderBy: { createdAt: 'desc' }`: the row with the
greatest `createdAt` (leftmost on ties). -/
def latestCreated : List Subscription → Option Subscription
  | [] => none
  | s :: rest =>
    match latestCreated rest with
    | none => some s
    | some t => if s.createdAt < t.createdAt then some t else some s

/-- Embeds `UsageService.getUserPlan`: the effective subscription is the
most-recently-created non-tombstoned row; `planType` defaults to `FREE`
when none exists; the plan is looked up in `PLANS`.  A pure read: the
function consumes the state and performs no writes. -/
def getUserPlan (db : DB) (userId : String) : PlanType × Option Subscription × Plan :=
  let subscription := latestCreated (db.subscriptions.filter (subMatches userId))
  let planType :=
    match subscription with
    | some s => s.planType
    | none => PlanType.FREE
  (planType, subscription, PLANS planType)

/-! ## UsageMeter (`UsageService.canCreateNote`, `AIService.checkUsageLimit`) -/

/-- Result shape of the quota checks.  The source returns a bare
`{ allowed: true }` on the unlimited paths, so `used` and `limit` are
optional fields. -/
structure QuotaResult where
  allowed : Bool
  used : Option Nat
  limit : Option Int
deriving DecidableEq, Repr

/-- Embeds `prisma.note.count({ where: { userId, deletedAt: null } })`. -/
def noteCount (db : DB) (uid : String) : Nat :=
  db.notes.countP (fun n => decide (n.userId = uid) && decide (n.deletedAt = none))

/-- Embeds `UsageService.canCreateNote`: unlimited plans (`notesLimit = -1`) return
only `{ allowed: true }`; otherwise the non-deleted note count is compared
against the plan's `notesLimit`. -/
def canCreateNote (db : DB) (userId : String) : QuotaResult :=
  let plan := (getUserPlan db userId).2.2
  if plan.features.notesLimit = -1 then
    { allowed := true, used := none, limit := none }
  else
    let c := noteCount db userId
    { allowed := decide ((c : Int) < plan.features.notesLimit),
      used := some c, limit := some plan.features.notesLimit }

/-- Embeds `new Date()` with `setDate(1)` and `setHours(0,0,0,0)`: the first day of
the current calendar month. -/
def startOfMonth (now : Date) : Date :=
  { year := now.year, month := now.month, day := 1 }

/-- Embeds `prisma.aIUsage.count` with
`{ userId, operation: 'ocr', createdAt: { gte: startOfMonth } }`. -/
def ocrUsageThisMonth (db : DB) (now : Date) (uid : String) : Nat :=
  db.aiUsage.countP (fun u =>
    decide (u.userId = uid) && decide (u.operation = "ocr") &&
      Date.le (startOfMonth now) u.createdAt)

/-- Embeds `AIService.checkUsageLimit`: `PRO` is unlimited; every other plan string
counts this month's `ocr` usage records against the fixed limit 10. -/
def checkUsageLimit (db : DB) (now : Date) (userId : String) (planType : String) : QuotaResult :=
  if planType = "PRO" then
    { allowed := true, used := none, limit := none }
  else
    let usageCount := ocrUsageThisMonth db now userId
    { allowed := decide (usageCount < 10), used := some usageCount, limit := some 10 }

/-! ## CostAccountant (`AIService.calculateCost`) -/

/-- The `costs` table: per-token input/output rates for the two operation
classes that are own properties of the object literal, with the
`costs[type] || costs.text` fallback collapsed to the text rates.  This
restriction is exact on every class string that is not a member name
inherited from `Object.prototype`; `calculateCostJs` below carries the full
JavaScript lookup semantics, including those inherited names. -/
def costRates (t : String) : ℚ × ℚ :=
  if t = "text" then (15 / 100 / 1000000, 6 / 10 / 1000000)
  else if t = "vision" then (25 / 10 / 1000000, 10 / 1000000)
  else (15 / 100 / 1000000, 6 / 10 / 1000000)

/-- Embeds `AIService.calculateCost`: a fixed 70% input / 30% output split applied
to the total token count, each share priced at the class's rate.  Exact for
every class string that is not a member name inherited from
`Object.prototype` (see `calculateCostJs`). -/
def calculateCost (tokens : ℚ) (t : String) : ℚ :=
  let inputTokens := tokens * (7 / 10)
  let outputTokens := tokens * (3 / 10)
  let rates := costRates t
  inputTokens * rates.1 + outputTokens * rates.2

/-- The member names of `Object.prototype` (ECMAScript, Annex B included,
as in Node): `costs` is a plain object literal, so a property read with any
of these keys finds a truthy inherited value instead of `undefined`. -/
def objectPrototypeKeys : List String :=
  ["constructor", "hasOwnProperty", "isPrototypeOf", "propertyIsEnumerable",
   "toLocaleString", "toString", "valueOf", "__proto__",
   "__defineGetter__", "__defineSetter__", "__lookupGetter__", "__lookupSetter__"]

/-- Result of the JavaScript property read `costs[type]`: an own rates
record, a truthy value inherited from `Object.prototype`, or `undefined`. -/
inductive CostsLookup where
  | rates (input output : ℚ)
  | inherited
  | absent
deriving DecidableEq, Repr

/-- The property read `costs[type]` with prototype-chain semantics. -/
def costsGet (t : String) : CostsLookup :=
  if t = "text" then .rates (15 / 100 / 1000000) (6 / 10 / 1000000)
  else if t = "vision" then .rates (25 / 10 / 1000000) (10 / 1000000)
  else if t ∈ objectPrototypeKeys then .inherited
  else .absent

/-- Embeds `AIService.calculateCost` with full JavaScript lookup semantics:
`costs[type] || costs.text` falls back to the text rates only when the read
yields `undefined`; a truthy value inherited from `Object.prototype` is
kept, its `.input`/`.output` are `undefined`, and the arithmetic returns
`NaN`, modelled as `none`.  Away from the inherited names this agrees with
`calculateCost` (`calculateCostJs_agrees`). -/
def calculateCostJs (tokens : ℚ) (t : String) : Option ℚ :=
  let inputTokens := tokens * (7 / 10)
  let outputTokens := tokens * (3 / 10)
  match costsGet t with
  | .rates i o => some (inputTokens * i + outputTokens * o)
  | .inherited => none
  | .absent => some (inputTokens * (15 / 100 / 1000000) + outputTokens * (6 / 10 / 1000000))

/-! ## Usage recording (`AIService.trackUsage`) -/

/-- Outcome of the `prisma.aIUsage.create` round-trip. -/
inductive WriteOutcome where
  | ok
  | storageError (msg : String)
deriving DecidableEq, Repr

/-- Embeds `AIService.trackUsage`: appends one usage row; a storage failure is
caught and logged, never rethrown, so the function returns the state
unchanged instead of propagating the error (its total return type `DB`
records that no exception escapes). -/
def trackUsage (db : DB) (outcome : WriteOutcome) (userId : String) (operation : String)
    (tokensUsed : Nat) (cost : ℚ) (noteId : Option Nat) (now : Date) : DB :=
  match outcome with
  | .storageError _ => db
  | .ok =>
    { db with aiUsage := db.aiUsage ++
        [{ userId := userId, noteId := noteId, operation := operation,
           tokensUsed := tokensUsed, cost := cost, createdAt := now }] }

/-! ## SubscriptionStateMachine (`BillingController` webhook handlers) -/

/-- The provider-side subscription object carried by
`customer.subscription.*` events and returned by
`stripe.subscriptions.retrieve`. -/
structure StripeSubObj where
  id : String
  status : String
  current_period_start : Nat
  current_period_end : Nat
  cancel_at_period_end : Bool
deriving DecidableEq, Repr

/-- The checkout-session object carried by `checkout.session.completed`.
The handler reads only `metadata`, `customer`, `customer_email` and
`subscription`; `payment_status` is part of the payload (and is read at
registration time) but is never consulted by the webhook handler. -/
structure CheckoutSession where
  id : String
  payment_status : String
  customer : Option String
  customer_email : Option String
  subscription : Option String
  metadata_userId : Option String
  metadata_email : Option String
  metadata_planType : Option String
  metadata_billingCycle : Option String
deriving DecidableEq, Repr

/-- Provider-side state visible to the handlers through
`stripe.subscriptions.retrieve`. -/
structure ProviderState where
  subscriptions : List StripeSubObj
deriving DecidableEq, Repr

/-- Embeds `stripe.subscriptions.retrieve(session.subscription)`: rejects (throws)
when the argument is missing or unknown, modelled as `none`. -/
def retrieveSubscription (ps : ProviderState) (sid : Option String) : Option StripeSubObj :=
  match sid with
  | none => none
  | some sid => ps.subscriptions.find? (fun s => decide (s.id = sid))

/-- The provider→internal status mapping of `handleSubscriptionUpdate`. -/
def mapStatus (s : String) : SubStatus :=
  if s = "active" then .ACTIVE
  else if s = "canceled" then .CANCELED
  else if s = "past_due" then .PAST_DUE
  else .INCOMPLETE

/-- Embeds `prisma.subscription.findUnique({ where: { stripeSubscriptionId } })`. -/
def findByStripeSubId (db : DB) (sid : String) : Option Subscription :=
  db.subscriptions.find? (fun s => decide (s.stripeSubscriptionId = some sid))

/-- The `data` of the `prisma.subscription.update` in
`handleSubscriptionUpdate`, applied to the row whose primary key is `rid`. -/
def updateRowFromEvent (ev : StripeSubObj) (rid : Nat) (s : Subscription) : Subscription :=
  if s.id = rid then
    { s with status := mapStatus ev.status,
             currentPeriodStart := some ev.current_period_start,
             currentPeriodEnd := some ev.current_period_end,
             cancelAtPeriodEnd := ev.cancel_at_period_end }
  else s

/-- Embeds `BillingController.handleSubscriptionUpdate` (serves both
`customer.subscription.created` and `customer.subscription.updated`):
ignore when no row carries the external id, otherwise update that row's
status, period bounds and `cancelAtPeriodEnd`. -/
def handleSubscriptionUpdate (db : DB) (ev : StripeSubObj) : DB :=
  match findByStripeSubId db ev.id with
  | none => db
  | some dbSub =>
    { db with subscriptions := db.subscriptions.map (updateRowFromEvent ev dbSub.id) }

/-- The `data` of the `prisma.subscription.update` in
`handleSubscriptionDeleted`: `status = CANCELED`, `planType = FREE` on the
row whose primary key is `rid`. -/
def cancelRow (rid : Nat) (s : Subscription) : Subscription :=
  if s.id = rid then { s with status := .CANCELED, planType := .FREE } else s

/-- The `prisma.user.update` of `handleSubscriptionDeleted`:
`role = 'USER'` on the user with id `uid`. -/
def demoteUser (uid : String) (u : User) : User :=
  if u.id = uid then { u with role := "USER" } else u

/-- Embeds `BillingController.handleSubscriptionDeleted`: ignore when no row
carries the external id, otherwise set the row to `CANCELED`/`FREE` and the
owning user's role to the base tier `"USER"`. -/
def handleSubscriptionDeleted (db : DB) (ev : StripeSubObj) : DB :=
  match findByStripeSubId db ev.id with
  | none => db
  | some dbSub =>
    { db with
        subscriptions := db.subscriptions.map (cancelRow dbSub.id),
        users := db.users.map (demoteUser dbSub.userId) }

/-- The `prisma.subscription.updateMany` of `handleCheckoutCompleted`:
set `deletedAt` on every row of user `uid` (the `where` clause carries no
`deletedAt` filter, so already-tombstoned rows are re-stamped too). -/
def tombstoneFor (uid : String) (now : Nat) (s : Subscription) : Subscription :=
  if s.userId = uid then { s with deletedAt := some now } else s

/-- The `prisma.user.update` of `handleCheckoutCompleted`:
`role = 'PRO'` on the user with id `uid`. -/
def promoteUser (uid : String) (u : User) : User :=
  if u.id = uid then { u with role := "PRO" } else u

/-- The row inserted by `handleCheckoutCompleted`. -/
def newProRow (session : CheckoutSession) (psub : StripeSubObj) (uid : String)
    (now newId : Nat) : Subscription :=
  { id := newId, userId := uid, planType := .PRO,
    status := if psub.status = "active" then .ACTIVE else .INCOMPLETE,
    stripeCustomerId := session.customer,
    stripeSubscriptionId := some psub.id,
    currentPeriodStart := some psub.current_period_start,
    currentPeriodEnd := some psub.current_period_end,
    cancelAtPeriodEnd := false, createdAt := now, deletedAt := none }

/-- Embeds `BillingController.handleCheckoutCompleted`.  Here `none` models a thrown
error reaching the webhook's catch block (a failed
`stripe.subscriptions.retrieve`, or `prisma.user.update` on a missing
user); `some db` models a normal return with resulting state `db`.
Faithful to the source's order: the guest/empty checks around an
unconditioned subscription fetch, then tombstoning every prior row of the
user, inserting the new `PRO` row, and upgrading the user's role.  The
session's `payment_status` is never examined. -/
def handleCheckoutCompleted (db : DB) (ps : ProviderState) (session : CheckoutSession)
    (now : Nat) (newId : Nat) : Option DB :=
  let userId := session.metadata_userId
  let email := session.metadata_email.orElse (fun _ => session.customer_email)
  if userId = none ∧ email = none then some db
  else
    match retrieveSubscription ps session.subscription with
    | none => none
    | some psub =>
      match userId with
      | none => some db
      | some uid =>
        if uid = "pending" then some db
        else
          let db1 : DB :=
            { db with subscriptions := db.subscriptions.map (tombstoneFor uid now) }
          let db2 : DB :=
            { db1 with subscriptions :=
                db1.subscriptions ++ [newProRow session psub uid now newId] }
          if db2.users.any (fun u => decide (u.id = uid)) then
            some { db2 with users := db2.users.map (promoteUser uid) }
          else none

/-! ## Helper lemmas -/

lemma latestCreated_mem {l : List Subscription} {t : Subscription}
    (h : latestCreated l = some t) : t ∈ l := by
  induction l with
  | nil => simp [latestCreated] at h
  | cons a rest ih =>
    simp only [latestCreated] at h
    split at h
    · injection h with h
      subst h
      exact List.mem_cons_self a rest
    · next u hr =>
      split at h
      · injection h with h
        subst h
        exact List.mem_cons_of_mem a (ih hr)
      · injection h with h
        subst h
        exact List.mem_cons_self a rest

lemma latestCreated_strict_max {l : List Subscription} {sub : Subscription}
    (hmem : sub ∈ l)
    (hmax : ∀ s ∈ l, s ≠ sub → s.createdAt < sub.createdAt) :
    latestCreated l = some sub := by
  induction l with
  | nil => simp at hmem
  | cons a rest ih =>
    simp only [latestCreated]
    by_cases ha : a = sub
    · subst ha
      split
      · rfl
      · next t hr =>
        by_cases hts : t = a
        · subst hts
          rw [if_neg (lt_irrefl _)]
        · have htmem : t ∈ rest := latestCreated_mem hr
          have hlt := hmax t (List.mem_cons_of_mem a htmem) hts
          rw [if_neg (not_lt_of_gt hlt)]
    · have hmem' : sub ∈ rest := by
        rcases List.mem_cons.mp hmem with h | h
        · exact absurd h.symm ha
        · exact h
      have ihh := ih hmem' (fun s hs hne => hmax s (List.mem_cons_of_mem a hs) hne)
      simp only [ihh]
      exact if_pos (hmax a (List.mem_cons_self a rest) ha)

lemma forall2_map_self {α : Type} (g : α → α) (P : α → α → Prop) :
    ∀ l : List α, (∀ x ∈ l, P x (g x)) → List.Forall₂ P l (l.map g)
  | [], _ => List.Forall₂.nil
  | a :: rest, h =>
    List.Forall₂.cons (h a (List.mem_cons_self a rest))
      (forall2_map_self g P rest (fun x hx => h x (List.mem_cons_of_mem a hx)))

/-! ## Claims about cost accounting -/

/-- C4: for every non-negative token count `t`, `calculateCost` is
`0.7*t*inputRate + 0.3*t*outputRate` for the operation class's rates
(text: 0.15/0.6 per million, vision: 2.5/10 per million); in particular
`calculateCost 1000 "text" = 700*0.15/1e6 + 300*0.6/1e6`, and switching to
`"vision"` changes only the rates, never the 70/30 split. -/
theorem calculateCost_spec (t : ℚ) (ht : 0 ≤ t) :
    calculateCost t "text" =
        7 / 10 * t * (15 / 100 / 1000000) + 3 / 10 * t * (6 / 10 / 1000000) ∧
    calculateCost t "vision" =
        7 / 10 * t * (25 / 10 / 1000000) + 3 / 10 * t * (10 / 1000000) ∧
    calculateCost 1000 "text" = 700 * (15 / 100) / 1000000 + 300 * (6 / 10) / 1000000 := by
  refine ⟨?_, ?_, ?_⟩ <;> simp [calculateCost, costRates] <;> ring

/-- Witness for C4 at `t = 1000`. -/
theorem calculateCost_spec_witness :
    calculateCost 1000 "text" = 700 * (15 / 100) / 1000000 + 300 * (6 / 10) / 1000000 :=
  (calculateCost_spec 1000 (by norm_num)).2.2

lemma calculateCostJs_agrees (t : ℚ) (c : String) (h : c ∉ objectPrototypeKeys) :
    calculateCostJs t c = some (calculateCost t c) := by
  by_cases h1 : c = "text"
  · subst h1
    simp [calculateCostJs, calculateCost, costsGet, costRates]
  · by_cases h2 : c = "vision"
    · subst h2
      simp [calculateCostJs, calculateCost, costsGet, costRates]
    · simp [calculateCostJs, calculateCost, costsGet, costRates, h1, h2, h]

/-- Counterexample to C10 as stated: `"toString"` is neither `"text"` nor
`"vision"`, yet the lookup `costs["toString"]` finds the truthy inherited
`Object.prototype.toString`, the `||` does not fall back, and the
arithmetic on its `undefined` rate fields returns `NaN` (`none`) — not the
text-rate cost. -/
theorem calculateCost_unknown_class_counterexample :
    ("toString" : String) ≠ "text" ∧ ("toString" : String) ≠ "vision" ∧
    ¬ (calculateCostJs 1000 "toString" = calculateCostJs 1000 "text") := by
  decide

/-- C10 (amended): `calculateCost` never throws on an arbitrary
operation-class string, but the silent fallback to the text rates holds
only for class strings that are not member names inherited from
`Object.prototype`; for those twelve inherited names the lookup keeps the
truthy inherited value and the result is `NaN` (`none`). -/
theorem calculateCostJs_unknown_class (t : ℚ) (c : String)
    (h1 : c ≠ "text") (h2 : c ≠ "vision") :
    (c ∉ objectPrototypeKeys → calculateCostJs t c = calculateCostJs t "text") ∧
    (c ∈ objectPrototypeKeys → calculateCostJs t c = none) := by
  constructor
  · intro h3
    simp [calculateCostJs, costsGet, h1, h2, h3]
  · intro h3
    simp [calculateCostJs, costsGet, h1, h2, h3]

/-- Witness for the amended C10 at the class `"summarize"`. -/
theorem calculateCostJs_unknown_class_witness :
    calculateCostJs 1000 "summarize" = calculateCostJs 1000 "text" :=
  (calculateCostJs_unknown_class 1000 "summarize" (by decide) (by decide)).1 (by decide)

/-! ## Claims about the usage meter -/

/-- C9: `trackUsage` never propagates a storage-write failure: on any failed
insert it returns the state unchanged (the triggering operation is not
aborted), and on success it appends exactly one `AIUsage` row, touching no
other table. -/
theorem trackUsage_spec (db : DB) (uid op : String) (tok : Nat) (cost : ℚ)
    (noteId : Option Nat) (now : Date) :
    (∀ msg, trackUsage db (.storageError msg) uid op tok cost noteId now = db) ∧
    (trackUsage db .ok uid op tok cost noteId now).aiUsage =
        db.aiUsage ++ [{ userId := uid, noteId := noteId, operation := op,
                         tokensUsed := tok, cost := cost, createdAt := now }] ∧
    (trackUsage db .ok uid op tok cost noteId now).users = db.users ∧
    (trackUsage db .ok uid op tok cost noteId now).subscriptions = db.subscriptions ∧
    (trackUsage db .ok uid op tok cost noteId now).notes = db.notes ∧
    (trackUsage db .ok uid op tok cost noteId now).paymentHistory = db.paymentHistory ∧
    (trackUsage db .ok uid op tok cost noteId now).pendingGuestCheckouts =
        db.pendingGuestCheckouts :=
  ⟨fun _ => rfl, rfl, rfl, rfl, rfl, rfl, rfl⟩

/-- C2: for a base-tier user, `checkUsageLimit` counts this user's `ocr`
usage rows created on or after the first day of the current calendar month,
returns them as `used` with `limit = 10`, and allows exactly when the count
is below 10 (so 9 is allowed and 10 is not); the `PRO` tier is always
allowed. -/
theorem checkUsageLimit_spec (db : DB) (now : Date) (uid : String) :
    (checkUsageLimit db now uid "FREE").used =
        some (db.aiUsage.countP (fun u =>
          decide (u.userId = uid) && decide (u.operation = "ocr") &&
            Date.le { year := now.year, month := now.month, day := 1 } u.createdAt)) ∧
    (checkUsageLimit db now uid "FREE").limit = some 10 ∧
    ((checkUsageLimit db now uid "FREE").allowed = true ↔
        ocrUsageThisMonth db now uid < 10) ∧
    (checkUsageLimit db now uid "PRO").allowed = true := by
  refine ⟨rfl, rfl, ?_, rfl⟩
  simp [checkUsageLimit]

/-! ## Claims about the entitlement resolver -/

/-- C1: a user with no non-tombstoned subscription row resolves to `FREE`
with exactly the `FREE` tier's plan (feature set included); a user whose
most-recently-created row with `deletedAt = null` has `planType = PRO`
resolves to the `PRO` plan.  `getUserPlan` consumes the state and returns
no updated state, so it performs no writes. -/
theorem getUserPlan_spec (db : DB) (uid : String) :
    ((∀ s ∈ db.subscriptions, s.userId = uid → s.deletedAt ≠ none) →
        getUserPlan db uid = (PlanType.FREE, none, PLANS PlanType.FREE)) ∧
    (∀ sub ∈ db.subscriptions, sub.userId = uid → sub.deletedAt = none →
        sub.planType = PlanType.PRO →
        (∀ s ∈ db.subscriptions, s.userId = uid → s.deletedAt = none → s ≠ sub →
          s.createdAt < sub.createdAt) →
        getUserPlan db uid = (PlanType.PRO, some sub, PLANS PlanType.PRO)) := by
  constructor
  · intro h
    have hfil : db.subscriptions.filter (subMatches uid) = [] := by
      rw [List.filter_eq_nil_iff]
      intro s hs
      simp only [subMatches, Bool.and_eq_true, decide_eq_true_eq, not_and]
      intro h1 h2
      exact h s hs h1 h2
    simp [getUserPlan, hfil, latestCreated]
  · intro sub hmem hu hd hp hmax
    have hfmem : sub ∈ db.subscriptions.filter (subMatches uid) := by
      rw [List.mem_filter]
      exact ⟨hmem, by simp [subMatches, hu, hd]⟩
    have hfmax : ∀ s ∈ db.subscriptions.filter (subMatches uid), s ≠ sub →
        s.createdAt < sub.createdAt := by
      intro s hs hne
      rw [List.mem_filter] at hs
      obtain ⟨hs1, hs2⟩ := hs
      simp only [subMatches, Bool.and_eq_true, decide_eq_true_eq] at hs2
      exact hmax s hs1 hs2.1 hs2.2 hne
    have hlat := latestCreated_strict_max hfmem hfmax
    simp [getUserPlan, hlat, hp]

/-- The effective subscription row used by the C1 witness. -/
def subW1 : Subscription :=
  { id := 1, userId := "u1", planType := .PRO, status := .ACTIVE,
    stripeCustomerId := some "cus_1", stripeSubscriptionId := some "sub_1",
    currentPeriodStart := some 0, currentPeriodEnd := some 100,
    cancelAtPeriodEnd := false, createdAt := 5, deletedAt := none }

/-- State for the C1 witness: one tombstoned `FREE` row and one later
non-tombstoned `PRO` row for the same user. -/
def dbW1 : DB :=
  { users := [{ id := "u1", email := "a@b.com", role := "PRO" }],
    subscriptions :=
      [subW1,
       { id := 0, userId := "u1", planType := .FREE, status := .ACTIVE,
         stripeCustomerId := some "cus_1", stripeSubscriptionId := none,
         currentPeriodStart := none, currentPeriodEnd := none,
         cancelAtPeriodEnd := false, createdAt := 2, deletedAt := some 3 }],
    notes := [], aiUsage := [], paymentHistory := [], pendingGuestCheckouts := [] }

/-- Witness for C1. -/
theorem getUserPlan_spec_witness :
    getUserPlan dbW1 "u1" = (PlanType.PRO, some subW1, PLANS PlanType.PRO) :=
  (getUserPlan_spec dbW1 "u1").2 subW1 (by decide) (by decide) (by decide) (by decide)
    (by decide)

/-! ## Claims about the note quota -/

/-- C3 (amended): when the resolved plan's `notesLimit` is `-1`,
`canCreateNote` returns only `{ allowed := true }`, with `used` and `limit`
absent; otherwise it returns the non-deleted note count as `used`, the
plan's `notesLimit` as `limit`, and allows exactly when `used < limit`. -/
theorem canCreateNote_spec (db : DB) (uid : String) :
    ((getUserPlan db uid).2.2.features.notesLimit = -1 →
        canCreateNote db uid = { allowed := true, used := none, limit := none }) ∧
    ((getUserPlan db uid).2.2.features.notesLimit ≠ -1 →
        (canCreateNote db uid).used = some (noteCount db uid) ∧
        (canCreateNote db uid).limit = some ((getUserPlan db uid).2.2.features.notesLimit) ∧
        ((canCreateNote db uid).allowed = true ↔
          (noteCount db uid : Int) < (getUserPlan db uid).2.2.features.notesLimit)) := by
  constructor
  · intro h
    simp [canCreateNote, h]
  · intro h
    refine ⟨?_, ?_, ?_⟩ <;> simp [canCreateNote, h]

/-- State for the C3 counterexample: a `PRO` user (so `notesLimit = -1`)
who owns five non-deleted notes. -/
def dbC3 : DB :=
  { users := [{ id := "u1", email := "a@b.com", role := "PRO" }],
    subscriptions :=
      [{ id := 1, userId := "u1", planType := .PRO, status := .ACTIVE,
         stripeCustomerId := some "cus_1", stripeSubscriptionId := some "sub_1",
         currentPeriodStart := some 0, currentPeriodEnd := some 100,
         cancelAtPeriodEnd := false, createdAt := 5, deletedAt := none }],
    notes :=
      [{ id := 1, userId := "u1", deletedAt := none },
       { id := 2, userId := "u1", deletedAt := none },
       { id := 3, userId := "u1", deletedAt := none },
       { id := 4, userId := "u1", deletedAt := none },
       { id := 5, userId := "u1", deletedAt := none }],
    aiUsage := [], paymentHistory := [], pendingGuestCheckouts := [] }

/-- Counterexample to C3 as stated: for the unlimited plan the returned
object does not carry the user's non-deleted note count in `used` (nor the
resolved `notesLimit` in `limit`) — it is a bare `{ allowed := true }`. -/
theorem canCreateNote_claim_counterexample :
    ¬ ((canCreateNote dbC3 "u1").used = some (noteCount dbC3 "u1") ∧
        (canCreateNote dbC3 "u1").limit =
          some ((getUserPlan dbC3 "u1").2.2.features.notesLimit)) := by
  decide

/-- State for the C3 witness: a user with no subscription row (`FREE` plan,
`notesLimit = 20`) and three non-deleted notes. -/
def dbW3 : DB :=
  { users := [{ id := "u2", email := "c@d.com", role := "USER" }],
    subscriptions := [],
    notes :=
      [{ id := 1, userId := "u2", deletedAt := none },
       { id := 2, userId := "u2", deletedAt := none },
       { id := 3, userId := "u2", deletedAt := some 9 },
       { id := 4, userId := "u2", deletedAt := none }],
    aiUsage := [], paymentHistory := [], pendingGuestCheckouts := [] }

/-- Witness for the amended C3. -/
theorem canCreateNote_spec_witness :
    (canCreateNote dbW3 "u2").used = some 3 := by
  have h := (canCreateNote_spec dbW3 "u2").2 (by decide)
  exact h.1.trans (by decide)

/-! ## Claims about the subscription state machine -/

lemma cancelRow_id (rid : Nat) (s : Subscription) : (cancelRow rid s).id = s.id := by
  unfold cancelRow
  split <;> rfl

lemma cancelRow_userId (rid : Nat) (s : Subscription) :
    (cancelRow rid s).userId = s.userId := by
  unfold cancelRow
  split <;> rfl

lemma cancelRow_stripeSub (rid : Nat) (s : Subscription) :
    (cancelRow rid s).stripeSubscriptionId = s.stripeSubscriptionId := by
  unfold cancelRow
  split <;> rfl

lemma cancelRow_idem (rid : Nat) (s : Subscription) :
    cancelRow rid (cancelRow rid s) = cancelRow rid s := by
  unfold cancelRow
  by_cases h : s.id = rid <;> simp [h]

lemma demoteUser_idem (uid : String) (u : User) :
    demoteUser uid (demoteUser uid u) = demoteUser uid u := by
  unfold demoteUser
  by_cases h : u.id = uid <;> simp [h]

lemma map_cancelRow_idem (rid : Nat) (l : List Subscription) :
    (l.map (cancelRow rid)).map (cancelRow rid) = l.map (cancelRow rid) := by
  rw [List.map_map]
  congr 1
  funext s
  exact cancelRow_idem rid s

lemma map_demoteUser_idem (uid : String) (l : List User) :
    (l.map (demoteUser uid)).map (demoteUser uid) = l.map (demoteUser uid) := by
  rw [List.map_map]
  congr 1
  funext u
  exact demoteUser_idem uid u

lemma find?_stripe_map_cancel (sid : String) (rid : Nat) (l : List Subscription) :
    (l.map (cancelRow rid)).find? (fun s => decide (s.stripeSubscriptionId = some sid)) =
      (l.find? (fun s => decide (s.stripeSubscriptionId = some sid))).map (cancelRow rid) := by
  rw [List.find?_map]
  have hcomp :
      ((fun s : Subscription => decide (s.stripeSubscriptionId = some sid)) ∘ cancelRow rid) =
        fun s : Subscription => decide (s.stripeSubscriptionId = some sid) := by
    funext s
    simp [Function.comp, cancelRow_stripeSub]
  rw [hcomp]

/-- C5: `customer.subscription.deleted` for a known external subscription id
sets that row's status to `CANCELED` and its `planType` to `FREE`, sets the
owning user's role to the base tier `"USER"`, and the handler is
idempotent: a second application leaves the state fixed. -/
theorem handleSubscriptionDeleted_spec (db : DB) (ev : StripeSubObj) (row : Subscription)
    (hfind : findByStripeSubId db ev.id = some row) :
    (∀ s ∈ (handleSubscriptionDeleted db ev).subscriptions,
        s.id = row.id → s.status = SubStatus.CANCELED ∧ s.planType = PlanType.FREE) ∧
    (∀ u ∈ (handleSubscriptionDeleted db ev).users,
        u.id = row.userId → u.role = "USER") ∧
    handleSubscriptionDeleted (handleSubscriptionDeleted db ev) ev =
      handleSubscriptionDeleted db ev := by
  have hres : handleSubscriptionDeleted db ev =
      { db with subscriptions := db.subscriptions.map (cancelRow row.id),
                users := db.users.map (demoteUser row.userId) } := by
    simp [handleSubscriptionDeleted, hfind]
  refine ⟨?_, ?_, ?_⟩
  · intro s hs hid
    rw [hres] at hs
    simp only [List.mem_map] at hs
    obtain ⟨x, hx, rfl⟩ := hs
    unfold cancelRow at hid ⊢
    by_cases hxid : x.id = row.id
    · simp [hxid]
    · rw [if_neg hxid] at hid ⊢
      exact absurd hid hxid
  · intro u hu hid
    rw [hres] at hu
    simp only [List.mem_map] at hu
    obtain ⟨x, hx, rfl⟩ := hu
    unfold demoteUser at hid ⊢
    by_cases hxid : x.id = row.userId
    · simp [hxid]
    · rw [if_neg hxid] at hid ⊢
      exact absurd hid hxid
  · rw [hres]
    have hfind2 : findByStripeSubId
        { db with subscriptions := db.subscriptions.map (cancelRow row.id),
                  users := db.users.map (demoteUser row.userId) } ev.id =
        some (cancelRow row.id row) := by
      show (db.subscriptions.map (cancelRow row.id)).find? _ = _
      rw [find?_stripe_map_cancel]
      unfold findByStripeSubId at hfind
      rw [hfind]
      rfl
    simp only [handleSubscriptionDeleted, hfind2, cancelRow_id, cancelRow_userId]
    rw [map_cancelRow_idem, map_demoteUser_idem]

/-- Subscription row for the C5 witness. -/
def rowW5 : Subscription :=
  { id := 3, userId := "u5", planType := .PRO, status := .ACTIVE,
    stripeCustomerId := some "cus_5", stripeSubscriptionId := some "sub_5",
    currentPeriodStart := some 0, currentPeriodEnd := some 100,
    cancelAtPeriodEnd := false, createdAt := 4, deletedAt := none }

/-- State for the C5 witness. -/
def dbW5 : DB :=
  { users := [{ id := "u5", email := "e@f.com", role := "PRO" }],
    subscriptions := [rowW5],
    notes := [], aiUsage := [], paymentHistory := [], pendingGuestCheckouts := [] }

/-- Provider payload for the C5 witness. -/
def evW5 : StripeSubObj :=
  { id := "sub_5", status := "canceled", current_period_start := 0,
    current_period_end := 100, cancel_at_period_end := false }

/-- Witness for C5. -/
theorem handleSubscriptionDeleted_spec_witness :
    handleSubscriptionDeleted (handleSubscriptionDeleted dbW5 evW5) evW5 =
      handleSubscriptionDeleted dbW5 evW5 :=
  (handleSubscriptionDeleted_spec dbW5 evW5 rowW5 (by decide)).2.2

/-- C6: `customer.subscription.created`/`updated` for an unknown external
subscription id leaves the state unchanged; for a matching row it updates
exactly that row's `status` (provider `active`/`canceled`/`past_due` map to
`ACTIVE`/`CANCELED`/`PAST_DUE`, anything else to `INCOMPLETE`),
`currentPeriodStart`, `currentPeriodEnd` and `cancelAtPeriodEnd`, leaving
every other field, every other row and every other table untouched. -/
theorem handleSubscriptionUpdate_spec (db : DB) (ev : StripeSubObj) :
    (findByStripeSubId db ev.id = none → handleSubscriptionUpdate db ev = db) ∧
    (∀ row, findByStripeSubId db ev.id = some row →
      (handleSubscriptionUpdate db ev).users = db.users ∧
      (handleSubscriptionUpdate db ev).notes = db.notes ∧
      (handleSubscriptionUpdate db ev).aiUsage = db.aiUsage ∧
      (handleSubscriptionUpdate db ev).paymentHistory = db.paymentHistory ∧
      (handleSubscriptionUpdate db ev).pendingGuestCheckouts = db.pendingGuestCheckouts ∧
      List.Forall₂ (fun old new =>
          new.userId = old.userId ∧ new.planType = old.planType ∧
          new.stripeCustomerId = old.stripeCustomerId ∧
          new.stripeSubscriptionId = old.stripeSubscriptionId ∧
          new.createdAt = old.createdAt ∧ new.deletedAt = old.deletedAt ∧
          new.id = old.id ∧
          (old.id = row.id →
            new.status = mapStatus ev.status ∧
            new.currentPeriodStart = some ev.current_period_start ∧
            new.currentPeriodEnd = some ev.current_period_end ∧
            new.cancelAtPeriodEnd = ev.cancel_at_period_end) ∧
          (old.id ≠ row.id → new = old))
        db.subscriptions (handleSubscriptionUpdate db ev).subscriptions) ∧
    mapStatus "active" = SubStatus.ACTIVE ∧
    mapStatus "canceled" = SubStatus.CANCELED ∧
    mapStatus "past_due" = SubStatus.PAST_DUE ∧
    (∀ st, st ≠ "active" → st ≠ "canceled" → st ≠ "past_due" →
      mapStatus st = SubStatus.INCOMPLETE) := by
  refine ⟨?_, ?_, rfl, rfl, rfl, ?_⟩
  · intro h
    simp [handleSubscriptionUpdate, h]
  · intro row hfind
    have hres : handleSubscriptionUpdate db ev =
        { db with subscriptions := db.subscriptions.map (updateRowFromEvent ev row.id) } := by
      simp [handleSubscriptionUpdate, hfind]
    rw [hres]
    refine ⟨rfl, rfl, rfl, rfl, rfl, ?_⟩
    apply forall2_map_self
    intro x hx
    unfold updateRowFromEvent
    by_cases hid : x.id = row.id
    · rw [if_pos hid]
      exact ⟨rfl, rfl, rfl, rfl, rfl, rfl, rfl,
        fun _ => ⟨rfl, rfl, rfl, rfl⟩, fun hne => absurd hid hne⟩
    · rw [if_neg hid]
      exact ⟨rfl, rfl, rfl, rfl, rfl, rfl, rfl,
        fun h => absurd h hid, fun _ => rfl⟩
  · intro st h1 h2 h3
    simp [mapStatus, h1, h2, h3]

/-- Subscription row for the C6 witness. -/
def rowW6 : Subscription :=
  { id := 9, userId := "u6", planType := .PRO, status := .ACTIVE,
    stripeCustomerId := some "cus_6", stripeSubscriptionId := some "sub_6",
    currentPeriodStart := some 0, currentPeriodEnd := some 100,
    cancelAtPeriodEnd := false, createdAt := 1, deletedAt := none }

/-- State for the C6 witness. -/
def dbW6 : DB :=
  { users := [{ id := "u6", email := "g@h.com", role := "PRO" }],
    subscriptions := [rowW6],
    notes := [], aiUsage := [], paymentHistory := [], pendingGuestCheckouts := [] }

/-- Provider payload for the C6 witness. -/
def evW6 : StripeSubObj :=
  { id := "sub_6", status := "past_due", current_period_start := 10,
    current_period_end := 20, cancel_at_period_end := true }

/-- Witness for C6. -/
theorem handleSubscriptionUpdate_spec_witness :
    (handleSubscriptionUpdate dbW6 evW6).users = dbW6.users :=
  ((handleSubscriptionUpdate_spec dbW6 evW6).2.1 rowW6 (by decide)).1

/-- State for the C7 counterexample: a registered user with no prior
subscription rows. -/
def dbC7 : DB :=
  { users := [{ id := "u7", email := "u7@x.com", role := "USER" }],
    subscriptions := [], notes := [], aiUsage := [],
    paymentHistory := [], pendingGuestCheckouts := [] }

/-- Provider state for the C7 counterexample. -/
def psC7 : ProviderState :=
  { subscriptions :=
      [{ id := "sub_7", status := "active", current_period_start := 0,
         current_period_end := 100, cancel_at_period_end := false }] }

/-- Session for the C7 counterexample: `payment_status` is `"unpaid"`, yet
the session carries a resolved user and a created subscription. -/
def sessC7 : CheckoutSession :=
  { id := "cs_7", payment_status := "unpaid", customer := some "cus_7",
    customer_email := none, subscription := some "sub_7",
    metadata_userId := some "u7", metadata_email := some "u7@x.com",
    metadata_planType := some "PRO", metadata_billingCycle := some "monthly" }

/-- Counterexample to C7 as stated: the handler acts even though the
session's payment status is not `"paid"` — the source never reads
`payment_status`, so "acts only if the payment status is paid" is false. -/
theorem handleCheckoutCompleted_claim_counterexample :
    ¬ (sessC7.payment_status ≠ "paid" →
        handleCheckoutCompleted dbC7 psC7 sessC7 100 1 = some dbC7) := by
  decide

/-- C7 (amended): for a session with a resolved (non-guest) user,
regardless of the session's payment status, whenever the referenced
provider subscription is retrievable and the user row exists, the handler
tombstones all of the user's prior subscription rows, appends one new row
keyed by the new external subscription id with `planType = PRO` and status
`ACTIVE` when the provider status is `"active"` and `INCOMPLETE`
otherwise, sets the user's role to `PRO`, and touches no other table. -/
theorem handleCheckoutCompleted_spec (db : DB) (ps : ProviderState)
    (sess : CheckoutSession) (now newId : Nat) (uid : String) (psub : StripeSubObj)
    (huid : sess.metadata_userId = some uid)
    (hpend : uid ≠ "pending")
    (hsub : retrieveSubscription ps sess.subscription = some psub)
    (huser : db.users.any (fun u => decide (u.id = uid)) = true) :
    ∃ db2, handleCheckoutCompleted db ps sess now newId = some db2 ∧
      db2.subscriptions.getLast? = some (newProRow sess psub uid now newId) ∧
      (newProRow sess psub uid now newId).planType = PlanType.PRO ∧
      (newProRow sess psub uid now newId).stripeSubscriptionId = some psub.id ∧
      (newProRow sess psub uid now newId).status =
        (if psub.status = "active" then SubStatus.ACTIVE else SubStatus.INCOMPLETE) ∧
      db2.subscriptions.length = db.subscriptions.length + 1 ∧
      List.Forall₂ (fun old new =>
          (old.userId = uid → new = { old with deletedAt := some now }) ∧
          (old.userId ≠ uid → new = old))
        db.subscriptions db2.subscriptions.dropLast ∧
      (∀ u ∈ db2.users, u.id = uid → u.role = "PRO") ∧
      db2.notes = db.notes ∧ db2.aiUsage = db.aiUsage ∧
      db2.paymentHistory = db.paymentHistory ∧
      db2.pendingGuestCheckouts = db.pendingGuestCheckouts := by
  have h0 : handleCheckoutCompleted db ps sess now newId =
      some { db with
        subscriptions := db.subscriptions.map (tombstoneFor uid now) ++
          [newProRow sess psub uid now newId],
        users := db.users.map (promoteUser uid) } := by
    simp [handleCheckoutCompleted, huid, hsub, hpend, huser]
  refine ⟨_, h0, ?_, rfl, rfl, rfl, ?_, ?_, ?_, rfl, rfl, rfl, rfl⟩
  · exact List.getLast?_concat _
  · simp
  · rw [List.dropLast_concat]
    apply forall2_map_self
    intro x hx
    unfold tombstoneFor
    by_cases hxu : x.userId = uid
    · rw [if_pos hxu]
      exact ⟨fun _ => rfl, fun hne => absurd hxu hne⟩
    · rw [if_neg hxu]
      exact ⟨fun h => absurd h hxu, fun _ => rfl⟩
  · intro u hu hid
    simp only [List.mem_map] at hu
    obtain ⟨x, hx, rfl⟩ := hu
    unfold promoteUser at hid ⊢
    by_cases hxid : x.id = uid
    · simp [hxid]
    · rw [if_neg hxid] at hid ⊢
      exact absurd hid hxid

/-- Session for the C7 witness: same as the counterexample session but with
a paid status, to show the amended behaviour on a concrete input. -/
def sessW7 : CheckoutSession :=
  { id := "cs_7b", payment_status := "paid", customer := some "cus_7",
    customer_email := none, subscription := some "sub_7",
    metadata_userId := some "u7", metadata_email := some "u7@x.com",
    metadata_planType := some "PRO", metadata_billingCycle := some "monthly" }

/-- Witness for the amended C7. -/
theorem handleCheckoutCompleted_spec_witness :
    (handleCheckoutCompleted dbC7 psC7 sessW7 100 5).isSome = true := by
  obtain ⟨db2, h, -⟩ :=
    handleCheckoutCompleted_spec dbC7 psC7 sessW7 100 5 "u7"
      { id := "sub_7", status := "active", current_period_start := 0,
        current_period_end := 100, cancel_at_period_end := false }
      rfl (by decide) (by decide) (by decide)
  rw [h]
  rfl

/-- State for the C8 counterexample and witness: empty
`pendingGuestCheckouts`, no users. -/
def dbC8 : DB :=
  { users := [], subscriptions := [], notes := [], aiUsage := [],
    paymentHistory := [], pendingGuestCheckouts := [] }

/-- Provider state for C8. -/
def psC8 : ProviderState :=
  { subscriptions :=
      [{ id := "sub_8", status := "active", current_period_start := 0,
         current_period_end := 100, cancel_at_period_end := false }] }

/-- Guest checkout session for C8: the metadata user id is the `'pending'`
sentinel, so the session has no resolved user. -/
def sessC8 : CheckoutSession :=
  { id := "cs_8", payment_status := "paid", customer := some "cus_8",
    customer_email := some "a@b.com", subscription := some "sub_8",
    metadata_userId := some "pending", metadata_email := some "a@b.com",
    metadata_planType := some "PRO", metadata_billingCycle := some "monthly" }

/-- Counterexample to C8 as stated: processing the guest
`checkout.session.completed` persists no `PendingGuestCheckout` mapping for
the session id — the handler returns with the state (including the
pending-guest table) unchanged, and the linkage data lives only in the
provider-side session metadata. -/
theorem handleCheckoutCompleted_guest_counterexample :
    ¬ (∃ db2, handleCheckoutCompleted dbC8 psC8 sessC8 100 1 = some db2 ∧
        ∃ p ∈ db2.pendingGuestCheckouts, p.sessionId = sessC8.id) := by
  rintro ⟨db2, h1, p, hp, -⟩
  have h0 : handleCheckoutCompleted dbC8 psC8 sessC8 100 1 = some dbC8 := by decide
  rw [h0] at h1
  injection h1 with h1
  subst h1
  simp [dbC8] at hp

/-- C8 (amended): a `checkout.session.completed` event for a guest checkout
(metadata user id is the `'pending'` sentinel) with a retrievable provider
subscription leaves the persisted state entirely unchanged: no
subscription-row change and no persisted `PendingGuestCheckout` mapping.
The `{email, planType, billingCycle}` data is carried in the provider-side
session metadata written when the session was created, and linking happens
at registration via a provider session lookup. -/
theorem handleCheckoutCompleted_guest_noop (db : DB) (ps : ProviderState)
    (sess : CheckoutSession) (now newId : Nat)
    (hguest : sess.metadata_userId = some "pending")
    (hsub : (retrieveSubscription ps sess.subscription).isSome = true) :
    handleCheckoutCompleted db ps sess now newId = some db := by
  obtain ⟨psub, hps⟩ := Option.isSome_iff_exists.mp hsub
  simp [handleCheckoutCompleted, hguest, hps]

/-- Witness for the amended C8. -/
theorem handleCheckoutCompleted_guest_noop_witness :
    handleCheckoutCompleted dbC8 psC8 sessC8 100 7 = some dbC8 :=
  handleCheckoutCompleted_guest_noop dbC8 psC8 sessC8 100 7 rfl (by decide)

end Notebook
